import Mathlib

/-!
Shallow embedding of the Pushbutton library (src/include/Pushbutton.h,
src/src/Pushbutton.cpp): a debounce-and-gesture-classification state machine
for a single momentary pushbutton, polled via `update`, with consuming event
queries `singleTap`, `doubleTap`, `longPress`, `eventDetected`, `getEvent`,
and configuration operations `enableEvents` and `setDelays`.

Modelling notes:
- `elapsedMillis` timers auto-advance with wall time; time passing between
  `update` calls is modelled by `elapse dt`, which adds `dt` to both timers.
- Pin I/O (`pinMode`, `digitalReadFast`) is modelled as a trace of `PinOp`
  actions returned alongside the new state; the raw pin level that
  `digitalReadFast` would return is an input to `update`.
- Machine integers (`uint16_t` periods, millisecond counters) are modelled as
  `Nat`; the spec's boundary contract (section 6) states counters are read
  without wraparound for the durations involved.
- The C++ field `active` is left uninitialized by the constructor; the model
  initializes it to `false` (no verified property depends on its initial value).
-/

/-- Pushbutton switch states (`stateEnum` plus the `UNINIT` sentinel the
constructor stores at src/src/Pushbutton.cpp line 60). -/
inductive stateEnum where
  | UNINIT
  | RDY
  | WAIT_LONG
  | WAIT_DOUBLE
  | WAIT_INACTIVE
  deriving DecidableEq, Repr

/-- Pushbutton switch events (`eventEnum` in Pushbutton.h). -/
inductive eventEnum where
  | NO_PRESS
  | SINGLE_TAP
  | DOUBLE_TAP
  | LONG_PRESS
  deriving DecidableEq, Repr

/-- Numeric value of each event, per `eventEnum` (NO_PRESS = 0b000,
SINGLE_TAP = 0b001, DOUBLE_TAP = 0b010, LONG_PRESS = 0b100). -/
def eventEnum.val : eventEnum → Nat
  | .NO_PRESS => 0
  | .SINGLE_TAP => 1
  | .DOUBLE_TAP => 2
  | .LONG_PRESS => 4

/-- Default debounce lockout period (ms), `DEBOUNCE_PERIOD` in Pushbutton.h. -/
def DEBOUNCE_PERIOD : Nat := 80

/-- Default max delay between first and second press (ms), `DOUBLETAP_DELAY`. -/
def DOUBLETAP_DELAY : Nat := 300

/-- Default min duration of long press (ms), `LONGPRESS_DURATION`. -/
def LONGPRESS_DURATION : Nat := 1000

/-- The per-button state record, `pushbuttonStruct` in Pushbutton.h.
The raw pin level is a `Bool` (`true` = HIGH); `activeLevel` is the level
meaning "pressed". -/
structure pushbuttonStruct where
  pinNum : Nat
  activeLevel : Bool
  enablePullup : Bool
  state : stateEnum
  event : eventEnum
  delayTimer : Nat
  lockoutTimer : Nat
  debouncePeriod : Nat
  doubleTapDelay : Nat
  longPressDuration : Nat
  active : Bool
  lockout : Bool
  doubleTapEnabled : Bool
  longPressEnabled : Bool
  deriving DecidableEq, Repr

/-- Pin I/O actions the library performs, in order. -/
inductive PinOp where
  | pinModeInput (pin : Nat) (pullup : Bool)
  | digitalRead (pin : Nat)
  deriving DecidableEq, Repr

namespace pushbuttonStruct

/-- The constructor `pushbutton::pushbutton(pinNum, actLevel, pullup)`
(Pushbutton.cpp lines 56-65). It performs no pin I/O (the returned action
trace is empty); pin configuration is deferred to the first `update`.
The three timing fields carry the header's default member initializers. -/
def construct (pinNum : Nat) (actLevel : Bool) (pullup : Bool) :
    pushbuttonStruct × List PinOp :=
  ({ pinNum := pinNum
     activeLevel := actLevel
     enablePullup := pullup
     state := .UNINIT
     event := .NO_PRESS
     delayTimer := 0
     lockoutTimer := 0
     debouncePeriod := DEBOUNCE_PERIOD
     doubleTapDelay := DOUBLETAP_DELAY
     longPressDuration := LONGPRESS_DURATION
     active := false
     lockout := false
     doubleTapEnabled := false
     longPressEnabled := false }, [])

/-- `pushbutton::enableEvents(eventSel)` (Pushbutton.cpp lines 70-73):
unconditionally overwrites both enable flags from the bitmask
(`eventSel & DOUBLE_TAP`, `eventSel & LONG_PRESS`). -/
def enableEvents (pb : pushbuttonStruct) (eventSel : Nat) : pushbuttonStruct :=
  { pb with
    doubleTapEnabled := eventSel &&& eventEnum.DOUBLE_TAP.val != 0
    longPressEnabled := eventSel &&& eventEnum.LONG_PRESS.val != 0 }

/-- `pushbutton::setDelays(dbPeriod, doubleDly, longDur)` (Pushbutton.cpp
lines 78-85): each positive argument replaces the corresponding duration,
zero arguments are ignored. -/
def setDelays (pb : pushbuttonStruct) (dbPeriod doubleDly longDur : Nat) :
    pushbuttonStruct :=
  let pb := if dbPeriod > 0 then { pb with debouncePeriod := dbPeriod } else pb
  let pb := if doubleDly > 0 then { pb with doubleTapDelay := doubleDly } else pb
  if longDur > 0 then { pb with longPressDuration := longDur } else pb

/-- Wall time passing between calls: both `elapsedMillis` timers advance
by `dt` milliseconds. -/
def elapse (pb : pushbuttonStruct) (dt : Nat) : pushbuttonStruct :=
  { pb with delayTimer := pb.delayTimer + dt, lockoutTimer := pb.lockoutTimer + dt }

/-- The `switch (pb.state)` block of `pushbutton::update()` (Pushbutton.cpp
lines 102-159), run after `pb.active` has been assigned; `active` is the
freshly sampled value. The block performs no pin I/O. -/
def updateSwitch (pb : pushbuttonStruct) (active : Bool) : pushbuttonStruct :=
  match pb.state with
  | .RDY =>
      if active then
        let pb := { pb with lockout := true, lockoutTimer := 0, delayTimer := 0 }
        if pb.doubleTapEnabled || pb.longPressEnabled then
          { pb with state := .WAIT_LONG }
        else
          { pb with event := .SINGLE_TAP, state := .WAIT_INACTIVE }
      else pb
  | .WAIT_LONG =>
      if active then
        if pb.longPressEnabled then
          if pb.delayTimer > pb.longPressDuration then
            { pb with event := .LONG_PRESS, state := .WAIT_INACTIVE }
          else pb
        else pb
      else
        let pb := { pb with lockout := true, lockoutTimer := 0 }
        if pb.doubleTapEnabled then
          { pb with state := .WAIT_DOUBLE }
        else
          { pb with event := .SINGLE_TAP, state := .RDY }
  | .WAIT_DOUBLE =>
      if pb.delayTimer > pb.doubleTapDelay then
        { pb with event := .SINGLE_TAP, state := .RDY }
      else if active then
        { pb with lockout := true, lockoutTimer := 0,
                  event := .DOUBLE_TAP, state := .WAIT_INACTIVE }
      else pb
  | .WAIT_INACTIVE =>
      if !active then
        { pb with lockout := true, lockoutTimer := 0, state := .RDY }
      else pb
  | .UNINIT => pb

/-- The body of `pushbutton::update()` after the `UNINIT` check (Pushbutton.cpp
lines 96-160): the debounce-lockout gate, then sampling and the state switch.
`acts` is the I/O already performed by this call (the pin configuration, on
the first call). -/
def updatePoll (pb : pushbuttonStruct) (level : Bool) (acts : List PinOp) :
    pushbuttonStruct × List PinOp :=
  if pb.lockout then
    if pb.lockoutTimer > pb.debouncePeriod then
      ({ pb with lockout := false }, acts)
    else (pb, acts)
  else
    let active := level = pb.activeLevel
    let pb := { pb with active := active }
    (pb.updateSwitch active, acts ++ [PinOp.digitalRead pb.pinNum])

/-- `pushbutton::update()` (Pushbutton.cpp lines 91-161). `level` is the raw
pin level `digitalReadFast(pb.pinNum)` would return if sampled. Returns the
new state and the pin I/O actions performed by this call, in order. On the
first call (state `UNINIT`) the pin is configured and the state set to `RDY`
before the rest of the body runs. -/
def update (pb : pushbuttonStruct) (level : Bool) :
    pushbuttonStruct × List PinOp :=
  if pb.state = .UNINIT then
    updatePoll { pb with state := .RDY } level
      [PinOp.pinModeInput pb.pinNum pb.enablePullup]
  else
    updatePoll pb level []

/-- `pushbutton::singleTap()` (Pushbutton.cpp lines 167-174): returns the
result plus the (possibly cleared) state. -/
def singleTap (pb : pushbuttonStruct) : Bool × pushbuttonStruct :=
  if pb.event = .SINGLE_TAP then (true, { pb with event := .NO_PRESS })
  else (false, pb)

/-- `pushbutton::doubleTap()` (Pushbutton.cpp lines 180-187). -/
def doubleTap (pb : pushbuttonStruct) : Bool × pushbuttonStruct :=
  if pb.event = .DOUBLE_TAP then (true, { pb with event := .NO_PRESS })
  else (false, pb)

/-- `pushbutton::longPress()` (Pushbutton.cpp lines 193-200). -/
def longPress (pb : pushbuttonStruct) : Bool × pushbuttonStruct :=
  if pb.event = .LONG_PRESS then (true, { pb with event := .NO_PRESS })
  else (false, pb)

/-- `pushbutton::eventDetected()` (Pushbutton.cpp lines 206-208): a
non-destructive peek; the state is returned unchanged. -/
def eventDetected (pb : pushbuttonStruct) : Bool × pushbuttonStruct :=
  (pb.event != .NO_PRESS, pb)

/-- `pushbutton::getEvent()` (Pushbutton.cpp lines 213-219): returns the
current event and unconditionally clears it. -/
def getEvent (pb : pushbuttonStruct) : eventEnum × pushbuttonStruct :=
  (pb.event, { pb with event := .NO_PRESS })

/-- One poll cycle: `dt` milliseconds pass, then `update` runs with raw pin
level `level`. -/
def step (pb : pushbuttonStruct) (input : Nat × Bool) : pushbuttonStruct :=
  ((pb.elapse input.1).update input.2).1

/-- Run a sequence of poll cycles. -/
def run (pb : pushbuttonStruct) (inputs : List (Nat × Bool)) : pushbuttonStruct :=
  inputs.foldl step pb

end pushbuttonStruct

/-- States reachable through the public operation surface: construction
followed by any interleaving of time passing, polling, configuration and
queries. -/
inductive Reachable : pushbuttonStruct → Prop where
  | construct (pin : Nat) (lvl pu : Bool) :
      Reachable (pushbuttonStruct.construct pin lvl pu).1
  | update (pb : pushbuttonStruct) (level : Bool) :
      Reachable pb → Reachable (pb.update level).1
  | elapse (pb : pushbuttonStruct) (dt : Nat) :
      Reachable pb → Reachable (pb.elapse dt)
  | enableEvents (pb : pushbuttonStruct) (sel : Nat) :
      Reachable pb → Reachable (pb.enableEvents sel)
  | setDelays (pb : pushbuttonStruct) (a b c : Nat) :
      Reachable pb → Reachable (pb.setDelays a b c)
  | singleTap (pb : pushbuttonStruct) :
      Reachable pb → Reachable (pb.singleTap).2
  | doubleTap (pb : pushbuttonStruct) :
      Reachable pb → Reachable (pb.doubleTap).2
  | longPress (pb : pushbuttonStruct) :
      Reachable pb → Reachable (pb.longPress).2
  | eventDetected (pb : pushbuttonStruct) :
      Reachable pb → Reachable (pb.eventDetected).2
  | getEvent (pb : pushbuttonStruct) :
      Reachable pb → Reachable (pb.getEvent).2

/-- A detector on pin 3, active level HIGH, no pull-up, freshly constructed. -/
def pbInit : pushbuttonStruct := (pushbuttonStruct.construct 3 true false).1

/-- `pbInit` after one inactive poll cycle: in `RDY`, no pending event,
lockout inactive, default configuration, no optional gestures enabled. -/
def pbReady : pushbuttonStruct := pbInit.step (1, false)

/-- `pbReady` with the double-tap gesture enabled (mask `DOUBLE_TAP`). -/
def pbReadyDT : pushbuttonStruct := pbReady.enableEvents 2

/-- `pbReady` right after a press was sampled: debounce lockout is active. -/
def pbLocked : pushbuttonStruct := pbReady.step (1, true)

/-- `agreesExceptEvent pb q` states that `q` matches `pb` on every field
other than `event`. -/
def agreesExceptEvent (pb q : pushbuttonStruct) : Prop :=
  q.pinNum = pb.pinNum ∧ q.activeLevel = pb.activeLevel ∧
  q.enablePullup = pb.enablePullup ∧ q.state = pb.state ∧
  q.delayTimer = pb.delayTimer ∧ q.lockoutTimer = pb.lockoutTimer ∧
  q.debouncePeriod = pb.debouncePeriod ∧ q.doubleTapDelay = pb.doubleTapDelay ∧
  q.longPressDuration = pb.longPressDuration ∧ q.active = pb.active ∧
  q.lockout = pb.lockout ∧ q.doubleTapEnabled = pb.doubleTapEnabled ∧
  q.longPressEnabled = pb.longPressEnabled

/-- Poll cycles driving `pbReadyDT` through press (1 ms), hold past the
debounce (100 ms), release (102 ms after the press), release debounce
(100 ms), then an inactive sample once the 300 ms double-tap window has
expired: classifies a SingleTap that is never consumed. -/
def c3trace : List (Nat × Bool) :=
  [(1, true), (100, true), (1, false), (100, false), (101, false)]

/-- Continuation of `c3trace`: a full second press-release-press (a double
tap) while the SingleTap from `c3trace` is still pending. -/
def c3tail : List (Nat × Bool) :=
  [(1, true), (100, true), (1, false), (100, false), (10, true)]

/-- `pbReadyDT` after press, debounced hold, release and release debounce:
in `WAIT_DOUBLE` with the lockout expired and `delayTimer = 202`, inside the
300 ms double-tap window measured from the press. -/
def pbWaitDouble : pushbuttonStruct :=
  pbReadyDT.run [(1, true), (100, true), (1, false), (100, false)]

/-- `pbReady` with long press enabled (mask `LONG_PRESS`), pressed, held past
the debounce, then held a further 900 ms: in `WAIT_LONG`, lockout expired,
`delayTimer = 1001` — just past the 1000 ms long-press threshold. -/
def pbHeldLP : pushbuttonStruct :=
  ((pbReady.enableEvents 4).run [(1, true), (100, true)]).elapse 900


open pushbuttonStruct

/-- C4: each consuming query returns true iff `event` equals its matching
value; on a match it clears `event` to `NO_PRESS`, otherwise it changes
nothing; and an immediate second call of the same query never returns true
again. -/
theorem consuming_query_spec (pb : pushbuttonStruct) :
    (pb.singleTap).1 = decide (pb.event = .SINGLE_TAP) ∧
    (pb.singleTap).2 =
      (if pb.event = .SINGLE_TAP then { pb with event := .NO_PRESS } else pb) ∧
    ((pb.singleTap).2.singleTap).1 = false ∧
    (pb.doubleTap).1 = decide (pb.event = .DOUBLE_TAP) ∧
    (pb.doubleTap).2 =
      (if pb.event = .DOUBLE_TAP then { pb with event := .NO_PRESS } else pb) ∧
    ((pb.doubleTap).2.doubleTap).1 = false ∧
    (pb.longPress).1 = decide (pb.event = .LONG_PRESS) ∧
    (pb.longPress).2 =
      (if pb.event = .LONG_PRESS then { pb with event := .NO_PRESS } else pb) ∧
    ((pb.longPress).2.longPress).1 = false := by
  cases h : pb.event <;>
    simp [pushbuttonStruct.singleTap, pushbuttonStruct.doubleTap,
          pushbuttonStruct.longPress, h]

/-- C6: `setDelays` replaces exactly the durations whose argument is
positive, leaves zero-argument durations unchanged (so `setDelays 0 0 0` is
the identity), and modifies no other field. -/
theorem setDelays_spec (pb : pushbuttonStruct) (a b c : Nat) :
    (pb.setDelays a b c).debouncePeriod = (if a > 0 then a else pb.debouncePeriod) ∧
    (pb.setDelays a b c).doubleTapDelay = (if b > 0 then b else pb.doubleTapDelay) ∧
    (pb.setDelays a b c).longPressDuration = (if c > 0 then c else pb.longPressDuration) ∧
    pb.setDelays 0 0 0 = pb ∧
    (pb.setDelays a b c).pinNum = pb.pinNum ∧
    (pb.setDelays a b c).activeLevel = pb.activeLevel ∧
    (pb.setDelays a b c).enablePullup = pb.enablePullup ∧
    (pb.setDelays a b c).state = pb.state ∧
    (pb.setDelays a b c).event = pb.event ∧
    (pb.setDelays a b c).delayTimer = pb.delayTimer ∧
    (pb.setDelays a b c).lockoutTimer = pb.lockoutTimer ∧
    (pb.setDelays a b c).active = pb.active ∧
    (pb.setDelays a b c).lockout = pb.lockout ∧
    (pb.setDelays a b c).doubleTapEnabled = pb.doubleTapEnabled ∧
    (pb.setDelays a b c).longPressEnabled = pb.longPressEnabled := by
  by_cases ha : a > 0 <;> by_cases hb : b > 0 <;> by_cases hc : c > 0 <;>
    simp [pushbuttonStruct.setDelays, ha, hb, hc]

/-- C9: `enableEvents` overwrites both optional-gesture flags from the mask
(bit `DOUBLE_TAP` for double tap, bit `LONG_PRESS` for long press); hence it
is not cumulative — a second call makes the first irrelevant — and
`enableEvents 0` disables both. -/
theorem enableEvents_spec (pb : pushbuttonStruct) (sel sel2 : Nat) :
    (pb.enableEvents sel).doubleTapEnabled =
      (sel &&& eventEnum.DOUBLE_TAP.val != 0) ∧
    (pb.enableEvents sel).longPressEnabled =
      (sel &&& eventEnum.LONG_PRESS.val != 0) ∧
    (pb.enableEvents sel).enableEvents sel2 = pb.enableEvents sel2 ∧
    (pb.enableEvents 0).doubleTapEnabled = false ∧
    (pb.enableEvents 0).longPressEnabled = false := by
  simp [pushbuttonStruct.enableEvents, eventEnum.val]

/-- C10: every query leaves every field other than `event` unchanged;
`eventDetected` changes nothing at all; the consuming queries either leave
`event` unchanged or clear it to `NO_PRESS`; `getEvent` clears it. -/
theorem query_frame_spec (pb : pushbuttonStruct) :
    agreesExceptEvent pb (pb.singleTap).2 ∧
    ((pb.singleTap).2.event = pb.event ∨ (pb.singleTap).2.event = .NO_PRESS) ∧
    agreesExceptEvent pb (pb.doubleTap).2 ∧
    ((pb.doubleTap).2.event = pb.event ∨ (pb.doubleTap).2.event = .NO_PRESS) ∧
    agreesExceptEvent pb (pb.longPress).2 ∧
    ((pb.longPress).2.event = pb.event ∨ (pb.longPress).2.event = .NO_PRESS) ∧
    (pb.eventDetected).2 = pb ∧
    agreesExceptEvent pb (pb.getEvent).2 ∧
    (pb.getEvent).2.event = .NO_PRESS := by
  cases h : pb.event <;>
    simp [agreesExceptEvent, pushbuttonStruct.singleTap,
          pushbuttonStruct.doubleTap, pushbuttonStruct.longPress,
          pushbuttonStruct.eventDetected, pushbuttonStruct.getEvent, h]

/-- C1 counterexample: from `pbReady` (Ready, no pending event, default
configuration, debounce period 80 ms), a pulse active for a single 1 ms poll
cycle — far under the debounce period — followed only by inactive samples
leaves `event = SINGLE_TAP`: the sub-debounce pulse did register. -/
theorem c1_short_pulse_registers :
    pbReady.state = .RDY ∧ pbReady.event = .NO_PRESS ∧
    pbReady.lockout = false ∧ 1 < pbReady.debouncePeriod ∧
    (pbReady.run [(1, true), (1, false), (100, false), (1, false)]).event =
      .SINGLE_TAP := by
  decide

/-- C2 counterexample: double tap enabled, window 300 ms. The first press is
held 249 ms and released (state `WAIT_DOUBLE`); the second press arrives
130 ms after that release — well within 300 ms of the release — yet the
detector classifies `SINGLE_TAP` and `doubleTap` returns false, because the
window is measured from the first press (249 + 130 > 300). -/
theorem c2_window_not_from_release :
    pbReadyDT.doubleTapEnabled = true ∧ pbReadyDT.doubleTapDelay = 300 ∧
    (pbReadyDT.run [(1, true), (100, true), (149, false)]).state =
      .WAIT_DOUBLE ∧
    100 + 30 < 300 ∧
    ((pbReadyDT.run
        [(1, true), (100, true), (149, false), (100, false), (30, true)]
      ).doubleTap).1 = false ∧
    (pbReadyDT.run
        [(1, true), (100, true), (149, false), (100, false), (30, true)]
      ).event = .SINGLE_TAP := by
  decide

/-- C3 counterexample: with double tap enabled, `c3trace` classifies a
SingleTap that is never consumed; running the further poll cycles of
`c3tail` (a complete double tap) sets `event = DOUBLE_TAP`, a new
classification produced while an unconsumed event was pending. -/
theorem c3_pending_event_overwritten :
    (pbReadyDT.run c3trace).event = .SINGLE_TAP ∧
    ((pbReadyDT.run c3trace).run c3tail).event = .DOUBLE_TAP ∧
    eventEnum.SINGLE_TAP ≠ eventEnum.DOUBLE_TAP := by
  decide

/-- C7 counterexample: construction performs no pin I/O at all (the
pin-configuration intent is deferred to the first `update`), and an `update`
during an active lockout performs no I/O — it does not consume a sample. -/
theorem c7_construction_silent :
    (pushbuttonStruct.construct 3 true false).2 = [] ∧
    pbLocked.lockout = true ∧
    (pbLocked.update true).2 = [] := by
  decide

/-- Helper: the `switch` block never puts the machine in `UNINIT`. -/
theorem updateSwitch_state_ne (pb : pushbuttonStruct) (active : Bool)
    (h : pb.state ≠ .UNINIT) : (pb.updateSwitch active).state ≠ .UNINIT := by
  cases hs : pb.state <;> simp only [updateSwitch, hs] <;>
    (try (split_ifs <;> simp_all)) <;> simp_all

/-- Helper: the post-`UNINIT` body never puts the machine in `UNINIT`. -/
theorem updatePoll_state_ne (q : pushbuttonStruct) (level : Bool)
    (acts : List PinOp) (hq : q.state ≠ .UNINIT) :
    ((updatePoll q level acts).1).state ≠ .UNINIT := by
  unfold updatePoll
  split_ifs with hL hT
  · simpa using hq
  · simpa using hq
  · exact updateSwitch_state_ne _ _ (by simpa using hq)

/-- Helper: after any `update` call the state is never `UNINIT`. -/
theorem update_state_ne (pb : pushbuttonStruct) (level : Bool) :
    ((pb.update level).1).state ≠ .UNINIT := by
  unfold update
  split_ifs with hU
  · exact updatePoll_state_ne _ _ _ (by simp)
  · exact updatePoll_state_ne _ _ _ hU

/-- Helper invariant: a reachable state in `UNINIT` has no active lockout
(`UNINIT` exists only between construction and the first `update`, and the
constructor clears the lockout). -/
theorem reachable_uninit_no_lockout (pb : pushbuttonStruct)
    (h : Reachable pb) : pb.state = .UNINIT → pb.lockout = false := by
  induction h with
  | construct pin lvl pu => intro _; rfl
  | update q level _ _ => intro hs; exact absurd hs (update_state_ne q level)
  | elapse q dt _ ih => simpa [pushbuttonStruct.elapse] using ih
  | enableEvents q sel _ ih => simpa [pushbuttonStruct.enableEvents] using ih
  | setDelays q a b c _ ih =>
      have hsl : (q.setDelays a b c).state = q.state ∧
          (q.setDelays a b c).lockout = q.lockout := by
        unfold pushbuttonStruct.setDelays; split_ifs <;> simp
      intro hs
      rw [hsl.1] at hs; rw [hsl.2]; exact ih hs
  | singleTap q _ ih =>
      have hsl : ((q.singleTap).2).state = q.state ∧
          ((q.singleTap).2).lockout = q.lockout := by
        unfold pushbuttonStruct.singleTap; split_ifs <;> simp
      intro hs; rw [hsl.1] at hs; rw [hsl.2]; exact ih hs
  | doubleTap q _ ih =>
      have hsl : ((q.doubleTap).2).state = q.state ∧
          ((q.doubleTap).2).lockout = q.lockout := by
        unfold pushbuttonStruct.doubleTap; split_ifs <;> simp
      intro hs; rw [hsl.1] at hs; rw [hsl.2]; exact ih hs
  | longPress q _ ih =>
      have hsl : ((q.longPress).2).state = q.state ∧
          ((q.longPress).2).lockout = q.lockout := by
        unfold pushbuttonStruct.longPress; split_ifs <;> simp
      intro hs; rw [hsl.1] at hs; rw [hsl.2]; exact ih hs
  | eventDetected q _ ih => simpa [pushbuttonStruct.eventDetected] using ih
  | getEvent q _ ih => simpa [pushbuttonStruct.getEvent] using ih

/-- C8: from any reachable state with the lockout active, `update` changes no
field except possibly the lockout flag (it does not sample the pin — no I/O
actions at all — and leaves state, event, both timers, configuration and
enables untouched), and it clears the lockout iff `lockoutTimer` strictly
exceeds `debouncePeriod`. -/
theorem update_lockout_frame (pb : pushbuttonStruct) (level : Bool)
    (hR : Reachable pb) (hL : pb.lockout = true) :
    pb.update level =
      ((if pb.lockoutTimer > pb.debouncePeriod then { pb with lockout := false }
        else pb), []) ∧
    ((pb.update level).1.lockout = false ↔ pb.lockoutTimer > pb.debouncePeriod) := by
  have hU : ¬ pb.state = .UNINIT := by
    intro hs
    rw [reachable_uninit_no_lockout pb hR hs] at hL
    exact Bool.noConfusion hL
  unfold update updatePoll
  rw [if_neg hU]
  by_cases hT : pb.lockoutTimer > pb.debouncePeriod <;> simp [hL, hT]

/-- C8 witness: `pbLocked` is reachable with an active, unexpired lockout;
the conclusion of the frame theorem holds there (the call is a no-op). -/
theorem update_lockout_frame_witness :
    pbLocked.update false =
      ((if pbLocked.lockoutTimer > pbLocked.debouncePeriod then
          { pbLocked with lockout := false }
        else pbLocked), []) ∧
    ((pbLocked.update false).1.lockout = false ↔
      pbLocked.lockoutTimer > pbLocked.debouncePeriod) :=
  update_lockout_frame pbLocked false
    (Reachable.update _ true (Reachable.elapse _ 1
      (Reachable.update _ false (Reachable.elapse _ 1
        (Reachable.construct 3 true false))))) (by decide)

/-- C1 (amended): with neither optional gesture enabled, from `RDY` with the
lockout inactive, the very first active sample — regardless of how briefly
the line has been active — immediately classifies SingleTap, starts the
debounce lockout and moves to `WAIT_INACTIVE`: the lockout-style debounce
ignores input after a press edge but does not reject short pulses. -/
theorem rdy_press_immediate (pb : pushbuttonStruct) (level : Bool)
    (hS : pb.state = .RDY) (hL : pb.lockout = false)
    (hD : pb.doubleTapEnabled = false) (hP : pb.longPressEnabled = false)
    (hA : level = pb.activeLevel) :
    (pb.update level).1.event = .SINGLE_TAP ∧
    (pb.update level).1.state = .WAIT_INACTIVE ∧
    (pb.update level).1.lockout = true ∧
    (pb.update level).1.lockoutTimer = 0 ∧
    (pb.update level).1.delayTimer = 0 := by
  unfold update updatePoll
  rw [if_neg (by simp [hS])]
  simp [hL, updateSwitch, hS, hA, hD, hP]

/-- C1 witness: at `pbReady` a single active sample classifies SingleTap. -/
theorem rdy_press_immediate_witness :
    (pbReady.update true).1.event = .SINGLE_TAP ∧
    (pbReady.update true).1.state = .WAIT_INACTIVE ∧
    (pbReady.update true).1.lockout = true ∧
    (pbReady.update true).1.lockoutTimer = 0 ∧
    (pbReady.update true).1.delayTimer = 0 :=
  rdy_press_immediate pbReady true (by decide) (by decide) (by decide)
    (by decide) (by decide)

/-- C2 (amended): the double-tap window is measured from the first press. In
`WAIT_DOUBLE` with the lockout inactive: if `delayTimer` (reset at the first
press, never at the release) strictly exceeds `doubleTapDelay`, the call
classifies SingleTap and returns to `RDY`; if `delayTimer` is still within
the window and the sample is active, the call classifies DoubleTap and moves
to `WAIT_INACTIVE`. -/
theorem wait_double_spec (pb : pushbuttonStruct) (level : Bool)
    (hS : pb.state = .WAIT_DOUBLE) (hL : pb.lockout = false) :
    (pb.delayTimer > pb.doubleTapDelay →
      (pb.update level).1.event = .SINGLE_TAP ∧
      (pb.update level).1.state = .RDY) ∧
    (pb.delayTimer ≤ pb.doubleTapDelay → level = pb.activeLevel →
      (pb.update level).1.event = .DOUBLE_TAP ∧
      (pb.update level).1.state = .WAIT_INACTIVE ∧
      (pb.update level).1.lockout = true) := by
  unfold update updatePoll
  rw [if_neg (by simp [hS])]
  constructor
  · intro hT
    simp [hL, updateSwitch, hS, hT]
  · intro hT hA
    have hT2 : ¬ pb.delayTimer > pb.doubleTapDelay := not_lt.mpr hT
    simp [hL, updateSwitch, hS, hT2, hA]

/-- C2 witness: at `pbWaitDouble` (`delayTimer = 202 ≤ 300`) an active sample
classifies DoubleTap. -/
theorem wait_double_spec_witness :
    (pbWaitDouble.delayTimer > pbWaitDouble.doubleTapDelay →
      (pbWaitDouble.update true).1.event = .SINGLE_TAP ∧
      (pbWaitDouble.update true).1.state = .RDY) ∧
    (pbWaitDouble.delayTimer ≤ pbWaitDouble.doubleTapDelay →
      true = pbWaitDouble.activeLevel →
      (pbWaitDouble.update true).1.event = .DOUBLE_TAP ∧
      (pbWaitDouble.update true).1.state = .WAIT_INACTIVE ∧
      (pbWaitDouble.update true).1.lockout = true) :=
  wait_double_spec pbWaitDouble true (by decide) (by decide)

/-- C5: in `WAIT_LONG` with the lockout inactive and long press enabled: an
active sample with `delayTimer` strictly above `longPressDuration` classifies
LongPress and moves to `WAIT_INACTIVE`; an active sample at or below the
threshold classifies nothing and stays in `WAIT_LONG`; an inactive sample
(release before the threshold) with double tap disabled classifies SingleTap
immediately and returns to `RDY` with the release lockout started. -/
theorem wait_long_spec (pb : pushbuttonStruct) (level : Bool)
    (hS : pb.state = .WAIT_LONG) (hL : pb.lockout = false)
    (hP : pb.longPressEnabled = true) :
    (level = pb.activeLevel → pb.delayTimer > pb.longPressDuration →
      (pb.update level).1.event = .LONG_PRESS ∧
      (pb.update level).1.state = .WAIT_INACTIVE) ∧
    (level = pb.activeLevel → pb.delayTimer ≤ pb.longPressDuration →
      (pb.update level).1.event = pb.event ∧
      (pb.update level).1.state = .WAIT_LONG) ∧
    (level ≠ pb.activeLevel → pb.doubleTapEnabled = false →
      (pb.update level).1.event = .SINGLE_TAP ∧
      (pb.update level).1.state = .RDY ∧
      (pb.update level).1.lockout = true) := by
  unfold update updatePoll
  rw [if_neg (by simp [hS])]
  refine ⟨?_, ?_, ?_⟩
  · intro hA hT
    simp [hL, updateSwitch, hS, hA, hP, hT]
  · intro hA hT
    have hT2 : ¬ pb.delayTimer > pb.longPressDuration := not_lt.mpr hT
    simp [hL, updateSwitch, hS, hA, hP, hT2]
  · intro hA hD
    simp [hL, updateSwitch, hS, hA, hD]

/-- C5 witness: at `pbHeldLP` (held 1001 ms against a 1000 ms threshold) an
active sample classifies LongPress and moves to `WAIT_INACTIVE`. -/
theorem wait_long_spec_witness :
    (true = pbHeldLP.activeLevel →
      pbHeldLP.delayTimer > pbHeldLP.longPressDuration →
      (pbHeldLP.update true).1.event = .LONG_PRESS ∧
      (pbHeldLP.update true).1.state = .WAIT_INACTIVE) ∧
    (true = pbHeldLP.activeLevel →
      pbHeldLP.delayTimer ≤ pbHeldLP.longPressDuration →
      (pbHeldLP.update true).1.event = pbHeldLP.event ∧
      (pbHeldLP.update true).1.state = .WAIT_LONG) ∧
    (true ≠ pbHeldLP.activeLevel → pbHeldLP.doubleTapEnabled = false →
      (pbHeldLP.update true).1.event = .SINGLE_TAP ∧
      (pbHeldLP.update true).1.state = .RDY ∧
      (pbHeldLP.update true).1.lockout = true) :=
  wait_long_spec pbHeldLP true (by decide) (by decide) (by decide)

/-- Helper: if the `switch` block changes `event`, the new value is a real
classification (never `NO_PRESS`) and the block also leaves the state that
produced it. -/
theorem updateSwitch_classify (q : pushbuttonStruct) (active : Bool)
    (h : (q.updateSwitch active).event ≠ q.event) :
    (q.updateSwitch active).event ≠ .NO_PRESS ∧
    (q.updateSwitch active).state ≠ q.state := by
  cases hs : q.state <;> simp only [updateSwitch, hs] at h ⊢ <;>
    (try (split_ifs at h ⊢ <;> simp_all)) <;> simp_all

/-- Helper: `updateSwitch_classify` lifted through the lockout gate (a locked
call never changes `event`). -/
theorem updatePoll_classify (q : pushbuttonStruct) (level : Bool)
    (acts : List PinOp)
    (h : ((updatePoll q level acts).1).event ≠ q.event) :
    ((updatePoll q level acts).1).event ≠ .NO_PRESS ∧
    ((updatePoll q level acts).1).state ≠ q.state := by
  unfold updatePoll at h ⊢
  split_ifs at h ⊢ with hL hT
  · simp_all
  · simp_all
  · have h2 := updateSwitch_classify _ _ (show _ ≠ _ from by simpa using h)
    constructor
    · exact h2.1
    · simpa using h2.2

/-- C3 (amended): every `update` call that changes `pendingEvent` sets it to
a real classification (never back to None) and simultaneously transitions
away from the state that produced it — so at most one classification is
produced per call and, provided the host drains the pending event between
gestures, it is never overwritten; without draining, a later gesture can
overwrite an unconsumed event (see the counterexample). -/
theorem update_classify_transitions (pb : pushbuttonStruct) (level : Bool)
    (h : (pb.update level).1.event ≠ pb.event) :
    (pb.update level).1.event ≠ .NO_PRESS ∧
    (pb.update level).1.state ≠ pb.state := by
  unfold update at h ⊢
  split_ifs at h ⊢ with hU
  · have h2 : ((updatePoll { pb with state := .RDY } level
        [PinOp.pinModeInput pb.pinNum pb.enablePullup]).1).event ≠
        ({ pb with state := .RDY } : pushbuttonStruct).event := by simpa using h
    refine ⟨(updatePoll_classify _ _ _ h2).1, ?_⟩
    rw [hU]
    exact updatePoll_state_ne _ _ _ (by simp)
  · exact updatePoll_classify _ _ _ h

/-- C3 witness: at `pbReady` a press changes `event` (to SingleTap), and the
theorem's conclusion holds: the new event is a classification and the state
moved away from `RDY`. -/
theorem update_classify_transitions_witness :
    (pbReady.update true).1.event ≠ .NO_PRESS ∧
    (pbReady.update true).1.state ≠ pbReady.state :=
  update_classify_transitions pbReady true (by decide)

/-- C7 (amended): construction performs no I/O; the first `update` call (from
`UNINIT`, lockout clear) performs the one-time pin-configuration intent
(input, with pull-up iff requested) followed by exactly one sample; and every
later `update` performs exactly one sample when the lockout is inactive and
no I/O at all while the lockout is active. -/
theorem io_contract (pin : Nat) (lvl pu l2 : Bool) (pb : pushbuttonStruct)
    (level : Bool) (h : pb.state ≠ .UNINIT) :
    (pushbuttonStruct.construct pin lvl pu).2 = [] ∧
    ((pushbuttonStruct.construct pin lvl pu).1.update l2).2 =
      [PinOp.pinModeInput pin pu, PinOp.digitalRead pin] ∧
    (pb.update level).2 =
      (if pb.lockout then [] else [PinOp.digitalRead pb.pinNum]) := by
  refine ⟨rfl, ?_, ?_⟩
  · unfold update updatePoll pushbuttonStruct.construct
    simp
  · unfold update updatePoll
    rw [if_neg h]
    by_cases hL : pb.lockout <;>
      by_cases hT : pb.lockoutTimer > pb.debouncePeriod <;> simp [hL, hT]

/-- C7 witness: concrete instance of the I/O contract on pin 3, evaluated at
`pbLocked` (lockout active, so that call performs no I/O). -/
theorem io_contract_witness :
    (pushbuttonStruct.construct 3 true false).2 = [] ∧
    ((pushbuttonStruct.construct 3 true false).1.update true).2 =
      [PinOp.pinModeInput 3 false, PinOp.digitalRead 3] ∧
    (pbLocked.update false).2 =
      (if pbLocked.lockout then [] else [PinOp.digitalRead pbLocked.pinNum]) :=
  io_contract 3 true false true pbLocked false (by decide)
